import Mathlib

/-!
Verification development for the QuickJS/JNI method-binding bridge
(`quickjs_bridge.cpp`).  The C++ source is shallowly embedded: each
bridge function becomes a Lean definition over explicit value and state
types, and the engine (QuickJS) and host runtime (JNI) calls that the
bridge makes are modelled by small faithful Lean counterparts.
-/

namespace QuickJsBridge

/-- Mirrors `enum class ValueKind` in the source. -/
inductive ValueKind where
  | kVoid
  | kString
  | kBoolean
  | kInt
  | kLong
  | kDouble
deriving DecidableEq, Repr

/-- A host (Java) class descriptor as seen by `classifyParameter`.
`stringT` is `java.lang.String`; the Box/Prim pairs are the boxed class and
the primitive `TYPE` class cached in `JavaRefs`; `voidPrim` is
`java.lang.Void.TYPE`; `other` is any class the bridge does not compare
against (tagged so distinct unknown classes stay distinct). -/
inductive TypeDesc where
  | stringT
  | booleanBox
  | booleanPrim
  | integerBox
  | integerPrim
  | longBox
  | longPrim
  | doubleBox
  | doublePrim
  | voidPrim
  | other (tag : Nat)
deriving DecidableEq, Repr

/-- Mirrors `classifyParameter` (lines 173-194).  The `jobject clazzObj`
argument may be the null reference, modelled as `none`.  The source
compares the class against the cached String/Boolean/Integer/Long/Double
(boxed and primitive) classes in order and returns `ValueKind::kVoid`
when none matches. -/
def classifyParameter : Option TypeDesc → ValueKind
  | none => ValueKind.kVoid
  | some d =>
    if d = TypeDesc.stringT then ValueKind.kString
    else if d = TypeDesc.booleanBox ∨ d = TypeDesc.booleanPrim then ValueKind.kBoolean
    else if d = TypeDesc.integerBox ∨ d = TypeDesc.integerPrim then ValueKind.kInt
    else if d = TypeDesc.longBox ∨ d = TypeDesc.longPrim then ValueKind.kLong
    else if d = TypeDesc.doubleBox ∨ d = TypeDesc.doublePrim then ValueKind.kDouble
    else ValueKind.kVoid

/-- The parameter-classification loop of `nativeRegister` (lines 729-740):
classify each descriptor in order and fail at the first one that
classifies as `kVoid` (the unsupported case). -/
def classifyParams : List (Option TypeDesc) → Option (List ValueKind)
  | [] => some []
  | d :: rest =>
    let k := classifyParameter d
    if k = ValueKind.kVoid then none
    else (classifyParams rest).map (fun ks => k :: ks)

/-- The return-type classification of `nativeRegister` (lines 742-755):
a null descriptor or `Void.TYPE` means `kVoid`; otherwise classify, and a
`kVoid` classification is an error unless the descriptor is the String
class (a fallback branch that is actually unreachable, since the String
class already classifies as `kString`). -/
def classifyReturn : Option TypeDesc → Option ValueKind
  | none => some ValueKind.kVoid
  | some d =>
    if d = TypeDesc.voidPrim then some ValueKind.kVoid
    else
      let k := classifyParameter (some d)
      if k = ValueKind.kVoid then
        if d = TypeDesc.stringT then some ValueKind.kString else none
      else some k

/-- A QuickJS numeric payload: a finite value (rationals over-approximate
the set of IEEE-754 doubles) or NaN.  Infinities are outside the modelled
universe; no bridge path in the claims produces them. -/
inductive JSNum where
  | nan
  | fin (q : ℚ)
deriving DecidableEq, Repr

/-- A QuickJS value as handled by the converters.  `symbol` stands for a
value (such as an ES Symbol) whose numeric coercion makes the engine
report an error.  Objects/arrays/functions are not parameter values the
claims touch and are omitted from this universe. -/
inductive JSVal where
  | null
  | undefined
  | bool (b : Bool)
  | num (q : ℚ)
  | nanv
  | str (s : String)
  | symbol
deriving DecidableEq, Repr

/-- A host (Java) value produced or consumed by the converters. -/
inductive JavaVal where
  | jstr (s : String)
  | jbool (b : Bool)
  | jint (n : ℤ)
  | jlong (n : ℤ)
  | jdouble (x : JSNum)
deriving DecidableEq, Repr

/-- Truncation toward zero of a rational, as used by the ToInt32/ToInt64
coercions of the engine. -/
def ratTrunc (q : ℚ) : ℤ := if q < 0 then -(⌊-q⌋) else ⌊q⌋

/-- Reduce an integer to the 32-bit two's-complement range, the final step
of the engine's ToInt32. -/
def wrap32 (n : ℤ) : ℤ :=
  let r := n % 4294967296
  if 2147483648 ≤ r then r - 4294967296 else r

/-- Reduce an integer to the 64-bit two's-complement range, the final step
of the engine's ToInt64. -/
def wrap64 (n : ℤ) : ℤ :=
  let r := n % 18446744073709551616
  if 9223372036854775808 ≤ r then r - 18446744073709551616 else r

/-- Structural floor of the base-2 logarithm with explicit fuel (64 steps
suffice for every value below 2^64); used by the double-rounding model. -/
def log2floorAux : Nat → Nat → Nat
  | 0, _ => 0
  | fuel + 1, n => if n < 2 then 0 else log2floorAux fuel (n / 2) + 1

def log2floor (n : Nat) : Nat := log2floorAux 64 n

/-- Round a natural number below 2^64 to the nearest value representable
in an IEEE-754 double (53 significand bits), ties to even — the rounding
a C cast from a 64-bit integer to `double` performs. -/
def f64RoundNat (n : Nat) : Nat :=
  if n ≤ 9007199254740992 then n
  else
    let k := log2floor n - 52
    let q := n / 2 ^ k
    let r := n % 2 ^ k
    if 2 * r < 2 ^ k then q * 2 ^ k
    else if 2 ^ k < 2 * r then (q + 1) * 2 ^ k
    else if q % 2 = 0 then q * 2 ^ k else (q + 1) * 2 ^ k

/-- Round an integer in the 64-bit range to the nearest
double-representable integer (the conversion inside `JS_NewInt64`). -/
def f64RoundInt (n : ℤ) : ℤ :=
  if n < 0 then -(f64RoundNat n.natAbs : ℤ) else (f64RoundNat n.natAbs : ℤ)

/-- A digit-only fragment of the engine's string-to-number grammar: the
empty string is 0, strings of decimal digits have their decimal value,
anything else is NaN.  The full JS numeric grammar belongs to the engine
and is outside the bridge; no claim depends on it. -/
def jsStringToNumber (s : String) : JSNum :=
  if s = "" then JSNum.fin 0
  else
    match s.toNat? with
    | some n => JSNum.fin (n : ℚ)
    | none => JSNum.nan

/-- The engine's ToNumber coercion on the modelled universe; `none`
means the engine reports an error (a thrown TypeError), which the bridge
sees as a negative return from JS_ToInt32/JS_ToInt64/JS_ToFloat64. -/
def jsToNumber : JSVal → Option JSNum
  | JSVal.null => some (JSNum.fin 0)
  | JSVal.undefined => some JSNum.nan
  | JSVal.bool b => some (JSNum.fin (if b then 1 else 0))
  | JSVal.num q => some (JSNum.fin q)
  | JSVal.nanv => some JSNum.nan
  | JSVal.str s => some (jsStringToNumber s)
  | JSVal.symbol => none

def jsNumToInt32 : JSNum → ℤ
  | JSNum.nan => 0
  | JSNum.fin q => wrap32 (ratTrunc q)

def jsNumToInt64 : JSNum → ℤ
  | JSNum.nan => 0
  | JSNum.fin q => wrap64 (ratTrunc q)

def JS_ToInt32 (v : JSVal) : Option ℤ := (jsToNumber v).map jsNumToInt32

def JS_ToInt64 (v : JSVal) : Option ℤ := (jsToNumber v).map jsNumToInt64

def JS_ToFloat64 (v : JSVal) : Option JSNum := jsToNumber v

/-- The engine's ToBoolean; on this universe it never reports an error
(JS_ToBool only fails on an exception value, which is not a convertible
argument value). -/
def JS_ToBool : JSVal → Option Bool
  | JSVal.null => some false
  | JSVal.undefined => some false
  | JSVal.bool b => some b
  | JSVal.num q => some (decide (q ≠ 0))
  | JSVal.nanv => some false
  | JSVal.str s => some (decide (s ≠ ""))
  | JSVal.symbol => some true

/-- The engine's ToString as exposed by JS_ToCString; `none` models the
null return (engine-reported failure, e.g. for a Symbol).  The decimal
rendering of non-integral doubles is engine-internal; it is abbreviated
here and unused by every claim. -/
def jsToCString : JSVal → Option String
  | JSVal.str s => some s
  | JSVal.null => some "null"
  | JSVal.undefined => some "undefined"
  | JSVal.bool b => some (if b then "true" else "false")
  | JSVal.num q => some (if q.den = 1 then toString q.num else toString q)
  | JSVal.nanv => some "NaN"
  | JSVal.symbol => none

/-- Mirrors `convertJsToJava` (lines 196-243).  A `none` result models the
`nullptr` return: for `kString` that is the valid null-string outcome on
null/undefined input (and on a failed JS_ToCString), for the other kinds
it is the coercion-failure signal. -/
def convertJsToJava (kind : ValueKind) (value : JSVal) : Option JavaVal :=
  match kind with
  | ValueKind.kString =>
    if value = JSVal.null ∨ value = JSVal.undefined then none
    else (jsToCString value).map JavaVal.jstr
  | ValueKind.kBoolean => (JS_ToBool value).map JavaVal.jbool
  | ValueKind.kInt => (JS_ToInt32 value).map JavaVal.jint
  | ValueKind.kLong => (JS_ToInt64 value).map JavaVal.jlong
  | ValueKind.kDouble => (JS_ToFloat64 value).map JavaVal.jdouble
  | ValueKind.kVoid => none

/-- Mirrors the engine's `JS_NewInt64`: values in the int32 range become
an int-tagged value, larger magnitudes are cast to double (rounding to
the nearest representable integer). -/
def JS_NewInt64 (n : ℤ) : JSVal :=
  if -2147483648 ≤ n ∧ n < 2147483648 then JSVal.num (n : ℚ)
  else JSVal.num ((f64RoundInt n : ℤ) : ℚ)

/-- Mirrors `convertJavaToJs` (lines 245-297).  `none` models a null
`jobject`.  The `some` arms with a host value of the wrong dynamic type
would be undefined JNI behaviour in the source; they are given the same
result as null here and are unreachable from well-typed bindings. -/
def convertJavaToJs (kind : ValueKind) (value : Option JavaVal) : JSVal :=
  match kind with
  | ValueKind.kString =>
    match value with
    | none => JSVal.null
    | some (JavaVal.jstr s) => JSVal.str s
    | some _ => JSVal.null
  | ValueKind.kBoolean =>
    match value with
    | none => JSVal.bool false
    | some (JavaVal.jbool b) => JSVal.bool b
    | some _ => JSVal.bool false
  | ValueKind.kInt =>
    match value with
    | none => JSVal.num 0
    | some (JavaVal.jint n) => JSVal.num (n : ℚ)
    | some _ => JSVal.num 0
  | ValueKind.kLong =>
    match value with
    | none => JSVal.num 0
    | some (JavaVal.jlong n) => JS_NewInt64 n
    | some _ => JSVal.num 0
  | ValueKind.kDouble =>
    match value with
    | none => JSVal.num 0
    | some (JavaVal.jdouble x) =>
      match x with
      | JSNum.fin q => JSVal.num q
      | JSNum.nan => JSVal.nanv
    | some _ => JSVal.num 0
  | ValueKind.kVoid => JSVal.undefined

/-- A host `Throwable` as seen through `Throwable.getMessage`:
`getMessageThrows` models `getMessage` itself raising (the
`ExceptionCheck` branch), `message` the returned string reference
(`none` is a null `jstring`, which `toUtfString` turns into ""). -/
structure ThrowableM where
  getMessageThrows : Bool
  message : Option String
deriving DecidableEq, Repr

/-- Mirrors `describeThrowable` (lines 303-318): null throwable, a
throwing `getMessage`, a null message and an empty message all fall back
to the generic text; otherwise the extracted message is returned. -/
def describeThrowable (throwable : Option ThrowableM) : String :=
  match throwable with
  | none => "Host method threw an exception"
  | some t =>
    if t.getMessageThrows then "Host method threw an exception"
    else
      let message := t.message.getD ""
      if message = "" then "Host method threw an exception" else message

/-- The record stored per binding in `QuickJsContext::bindings`
(struct `MethodBinding`); `ownedRefs` counts the JNI global references
the binding owns (method ref, plus instance ref when present). -/
structure BindingRec where
  id : ℤ
  objectName : String
  methodName : String
  parameterKinds : List ValueKind
  returnKind : ValueKind
  ownedRefs : Nat
deriving DecidableEq, Repr

/-- Error raised by the argument-conversion loop: the TypeError message
and the already-converted host references the loop released before
raising it. -/
structure ConvErr where
  message : String
  released : List JavaVal
deriving DecidableEq, Repr

/-- The call-site argument at position `i`: `argv[i]` when `i < argc`,
otherwise `JS_UNDEFINED` (line 345). -/
def argAt (args : List JSVal) (i : Nat) : JSVal := args.getD i JSVal.undefined

/-- The argument-conversion loop of `invokeBinding` (lines 344-361):
convert each declared parameter; a null conversion for a non-String kind
aborts the call, releasing the local references converted so far. -/
def convertArgsAux (objectName methodName : String) :
    List ValueKind → List JSVal → List (Option JavaVal) →
    Except ConvErr (List (Option JavaVal))
  | [], _, acc => Except.ok acc.reverse
  | k :: ks, args, acc =>
    let a := args.headD JSVal.undefined
    let c := convertJsToJava k a
    if c = none ∧ k ≠ ValueKind.kString then
      Except.error
        { message := "Unable to convert argument for method " ++ objectName ++ "." ++ methodName,
          released := acc.reverse.filterMap id }
    else convertArgsAux objectName methodName ks args.tail (c :: acc)

def convertArgs (objectName methodName : String) (kinds : List ValueKind)
    (args : List JSVal) : Except ConvErr (List (Option JavaVal)) :=
  convertArgsAux objectName methodName kinds args []

/-- The conversion applied to parameter position `j`, for stating the
loop's behaviour positionally. -/
def convAt (kinds : List ValueKind) (args : List JSVal) (j : Nat) : Option JavaVal :=
  convertJsToJava (kinds.getD j ValueKind.kVoid) (argAt args j)

/-- Position `j` triggers the hard-error branch of the loop: a null
conversion for a kind other than String. -/
def argFails (kinds : List ValueKind) (args : List JSVal) (j : Nat) : Prop :=
  convAt kinds args j = none ∧ kinds.getD j ValueKind.kVoid ≠ ValueKind.kString

instance (kinds : List ValueKind) (args : List JSVal) (j : Nat) :
    Decidable (argFails kinds args j) := by
  unfold argFails; infer_instance

/-- Outcome of `Method.invoke` on the host side: a returned value (null
reference allowed) or a pending host exception. -/
inductive HostOutcome where
  | ret (v : Option JavaVal)
  | threw (t : Option ThrowableM)

/-- What the dispatcher hands back to the engine: a normal JS value, or
a thrown JS error (TypeError for argument-conversion failures,
InternalError for host exceptions and missing bindings). -/
inductive ErrTag where
  | typeError
  | internalError
deriving DecidableEq, Repr

inductive InvokeResult where
  | ok (v : JSVal)
  | jsThrow (tag : ErrTag) (message : String)
deriving DecidableEq, Repr

/-- Mirrors `invokeBinding` (lines 320-412), with the host reflection
call abstracted as `host`: convert the arguments, invoke, translate a
pending host exception into a thrown JS InternalError carrying the
extracted message, otherwise convert the result by return kind (`kVoid`
produces `JS_UNDEFINED`). -/
def invokeBinding (binding : BindingRec) (argv : List JSVal)
    (host : List (Option JavaVal) → HostOutcome) : InvokeResult :=
  match convertArgs binding.objectName binding.methodName binding.parameterKinds argv with
  | Except.error e => InvokeResult.jsThrow ErrTag.typeError e.message
  | Except.ok conv =>
    match host conv with
    | HostOutcome.threw t => InvokeResult.jsThrow ErrTag.internalError (describeThrowable t)
    | HostOutcome.ret r =>
      if binding.returnKind = ValueKind.kVoid then InvokeResult.ok JSVal.undefined
      else InvokeResult.ok (convertJavaToJs binding.returnKind r)

/-- A value held by a JS property in the global-object model: enough to
distinguish absence (`undefinedV`), null, plain objects (by heap id),
the native dispatch functions (tagged with their binding id), and any
other non-null value. -/
inductive GVal where
  | undefinedV
  | nullV
  | objref (id : Nat)
  | cfuncV (bindingId : ℤ)
  | other (tag : Nat)
deriving DecidableEq, Repr

/-- Replace (or add) the binding of `k` in an association list. -/
def setAssoc {α β : Type} [BEq α] (l : List (α × β)) (k : α) (v : β) : List (α × β) :=
  (k, v) :: l.filter (fun p => !(p.1 == k))

/-- The mutable state of one `QuickJsContext` (lines 82-90) together with
a model of the engine-side global object: `globals` are the properties of
the JS global object, `heap` the properties of each plain JS object,
`assigned` a ghost log (newest first) of every binding id handed out by
the allocation in lines 757-763. -/
structure BridgeSt where
  globals : List (String × GVal) := []
  heap : List (Nat × List (String × GVal)) := []
  nextObj : Nat := 0
  bindings : List (ℤ × BindingRec) := []
  nextBindingId : ℤ := 1
  hostRefs : Nat := 0
  assigned : List ℤ := []
deriving DecidableEq, Repr

/-- The state right after `nativeCreate`: empty registry, counter at 1. -/
def initialState : BridgeSt := {}

/-- JS_GetPropertyStr on the global object: an absent property reads as
undefined. -/
def getGlobal (st : BridgeSt) (name : String) : GVal :=
  (st.globals.lookup name).getD GVal.undefinedV

/-- The script-visible value reachable as `objectName.methodName`: the
named global must be a plain object and carry the property. -/
def scriptMethod (st : BridgeSt) (objectName methodName : String) : Option GVal :=
  match getGlobal st objectName with
  | GVal.objref i => (st.heap.lookup i).bind (fun props => props.lookup methodName)
  | _ => none

/-- Mirrors `ensureGlobalObject` (lines 442-464).  When the global
property is undefined or null a fresh object is created and installed
(`oracleFail` injects the engine failing to allocate the object or to set
the property, the `return false` paths); otherwise the existing value is
returned and nothing is mutated. -/
def ensureGlobalObject (st : BridgeSt) (name : String) (oracleFail : Bool) :
    Option (BridgeSt × GVal) :=
  if getGlobal st name = GVal.undefinedV ∨ getGlobal st name = GVal.nullV then
    if oracleFail then none
    else
      some ({ st with
                globals := setAssoc st.globals name (GVal.objref st.nextObj),
                heap := (st.nextObj, ([] : List (String × GVal))) :: st.heap,
                nextObj := st.nextObj + 1 },
            GVal.objref st.nextObj)
  else some (st, getGlobal st name)

/-- JS_DefinePropertyValueStr of the dispatch function on the namespace
value (line 802): fails on the engine's say-so (`oracleFail`), on a
non-object namespace value, or (never reachable from the bridge) on a
dangling object reference; on failure no property changes. -/
def defineMethodProp (st : BridgeSt) (nsVal : GVal) (methodName : String)
    (bindingId : ℤ) (oracleFail : Bool) : Option BridgeSt :=
  match nsVal with
  | GVal.objref i =>
    if oracleFail then none
    else
      match st.heap.lookup i with
      | some props =>
        some { st with heap := setAssoc st.heap i (setAssoc props methodName (GVal.cfuncV bindingId)) }
      | none => none
  | _ => none

/-- NewGlobalRef calls of lines 723-725 (counted). -/
def acquireRefs (st : BridgeSt) (k : Nat) : BridgeSt :=
  { st with hostRefs := st.hostRefs + k }

/-- DeleteGlobalRef calls of an error path (counted). -/
def releaseRefs (st : BridgeSt) (k : Nat) : BridgeSt :=
  { st with hostRefs := st.hostRefs - k }

/-- The rollback block repeated in lines 768-775, 790-797 and 803-811:
find the just-created registry entry, release the host references it
owns, and erase it. -/
def rollback (st : BridgeSt) (bindingId : ℤ) : BridgeSt :=
  match st.bindings.lookup bindingId with
  | some b =>
    { st with
        bindings := st.bindings.filter (fun p => !(p.1 == bindingId)),
        hostRefs := st.hostRefs - b.ownedRefs }
  | none => st

/-- Engine-failure injection for the three fallible engine calls of a
registration. -/
structure EngineOracle where
  ensureFails : Bool := false
  newFunctionFails : Bool := false
  definePropFails : Bool := false
deriving DecidableEq, Repr

/-- Mirrors `Java_io_ton_walletkit_quickjs_QuickJs_nativeRegister`
(lines 699-817): validate names, acquire the method/instance global
references, classify parameter and return descriptors (releasing the
references on an unsupported type), allocate the next binding id and
store the binding under the mutex, then wire the script-visible function,
rolling the registry entry and its references back on any engine
failure.  The second component is the thrown `QuickJsException` message,
`none` on success. -/
def nativeRegister (st : BridgeSt) (objectName methodName : String)
    (hasInstance : Bool) (parameterTypes : List (Option TypeDesc))
    (returnType : Option TypeDesc) (oracle : EngineOracle) :
    BridgeSt × Option String :=
  if objectName.isEmpty ∨ methodName.isEmpty then
    (st, some "Object or method name cannot be empty")
  else
    let refCount := 1 + (if hasInstance then 1 else 0)
    let st1 := acquireRefs st refCount
    match classifyParams parameterTypes with
    | none =>
      (releaseRefs st1 refCount,
       some ("Unsupported parameter type for method " ++ objectName ++ "." ++ methodName))
    | some kinds =>
      match classifyReturn returnType with
      | none =>
        (releaseRefs st1 refCount,
         some ("Unsupported return type for method " ++ objectName ++ "." ++ methodName))
      | some retKind =>
        let bindingId := st1.nextBindingId
        let bRec : BindingRec :=
          { id := bindingId, objectName := objectName, methodName := methodName,
            parameterKinds := kinds, returnKind := retKind, ownedRefs := refCount }
        let st2 :=
          { st1 with
              nextBindingId := bindingId + 1,
              bindings := (bindingId, bRec) :: st1.bindings,
              assigned := bindingId :: st1.assigned }
        match ensureGlobalObject st2 objectName oracle.ensureFails with
        | none =>
          (rollback st2 bindingId, some ("Failed to create host object " ++ objectName))
        | some (st3, nsVal) =>
          if oracle.newFunctionFails then
            (rollback st3 bindingId,
             some ("Failed to create native function for " ++ objectName ++ "." ++ methodName))
          else
            match defineMethodProp st3 nsVal methodName bindingId oracle.definePropFails with
            | none =>
              (rollback st3 bindingId,
               some ("Failed to attach method " ++ objectName ++ "." ++ methodName))
            | some st4 => (st4, none)

/-- Mirrors `Java_io_ton_walletkit_quickjs_QuickJs_nativeDestroy`
(lines 592-624): under the mutex, release every binding's owned host
references and clear the registry. -/
def nativeDestroy (st : BridgeSt) : BridgeSt :=
  { st with
      bindings := [],
      hostRefs := st.hostRefs - (st.bindings.map (fun p => p.2.ownedRefs)).sum }

/-- The registry lookup the dispatcher performs under the mutex
(lines 421-435): resolve the magic tag to the stored binding. -/
def dispatchLookup (st : BridgeSt) (magic : ℤ) : Option BindingRec :=
  st.bindings.lookup magic

/-- Mirrors `methodDispatcher` (lines 414-440): resolve the binding by
its magic tag and invoke it, or throw "Host binding not found". -/
def methodDispatcher (st : BridgeSt) (magic : ℤ) (argv : List JSVal)
    (host : List (Option JavaVal) → HostOutcome) : InvokeResult :=
  match dispatchLookup st magic with
  | none => InvokeResult.jsThrow ErrTag.internalError "Host binding not found"
  | some binding => invokeBinding binding argv host

/-- The operations the JNI surface of the bridge exports on a live
context — exactly the `native*` entry points of the source.  There is no
unregister operation.  `evaluate` and `executePendingJob` never touch
the registry. -/
inductive BridgeOp where
  | register (objectName methodName : String) (hasInstance : Bool)
      (parameterTypes : List (Option TypeDesc)) (returnType : Option TypeDesc)
      (oracle : EngineOracle)
  | evaluate
  | executePendingJob
  | dispatch (magic : ℤ)
  | destroy
deriving DecidableEq

/-- Effect of one bridge operation on the context state.  The mutex in
the source serializes every registry access, so concurrent executions of
these operations are modelled by their serializations. -/
def stepOp (st : BridgeSt) : BridgeOp → BridgeSt
  | BridgeOp.register o m h p r orc => (nativeRegister st o m h p r orc).1
  | BridgeOp.evaluate => st
  | BridgeOp.executePendingJob => st
  | BridgeOp.dispatch _ => st
  | BridgeOp.destroy => nativeDestroy st

def runOps (st : BridgeSt) : List BridgeOp → BridgeSt
  | [] => st
  | op :: rest => runOps (stepOp st op) rest

/-- Every registry key is below the allocation counter. -/
def BindingsBound (st : BridgeSt) : Prop :=
  ∀ p ∈ st.bindings, p.1 < st.nextBindingId

instance (st : BridgeSt) : Decidable (BindingsBound st) := by
  unfold BindingsBound; infer_instance

/-- Total host references owned by the live bindings. -/
def refSum (st : BridgeSt) : Nat :=
  (st.bindings.map (fun p => p.2.ownedRefs)).sum

/-! ### Arithmetic helper lemmas -/

lemma ratTrunc_intCast (n : ℤ) : ratTrunc ((n : ℚ)) = n := by
  unfold ratTrunc
  split
  · rw [show -((n : ℚ)) = (((-n : ℤ) : ℚ)) by push_cast; ring, Int.floor_intCast]
    omega
  · rw [Int.floor_intCast]

lemma wrap32_eq_self (n : ℤ) (h1 : -2147483648 ≤ n) (h2 : n < 2147483648) :
    wrap32 n = n := by
  unfold wrap32
  dsimp only
  split <;> omega

lemma wrap64_eq_self (n : ℤ) (h1 : -9223372036854775808 ≤ n) (h2 : n < 9223372036854775808) :
    wrap64 n = n := by
  unfold wrap64
  dsimp only
  split <;> omega

lemma f64RoundNat_small (n : Nat) (h : n ≤ 9007199254740992) : f64RoundNat n = n := by
  unfold f64RoundNat
  simp [h]

lemma f64RoundInt_small (n : ℤ) (h : n.natAbs ≤ 9007199254740992) : f64RoundInt n = n := by
  unfold f64RoundInt
  split <;> rw [f64RoundNat_small _ h] <;> omega

/-! ### C1 — script-to-host-to-script round trip -/

/-- The script values of each kind's value range: strings or null for
String (null is the claim's stated exception and round-trips through the
host null reference), booleans for Boolean, integral numbers within the
32-bit range for Int32, integral double-representable numbers within the
64-bit range for Int64 (every actual script number is an IEEE-754 double,
so double representability delimits the in-range script values), and any
modelled number (finite or NaN) for Double. -/
def inRangeJs : ValueKind → JSVal → Prop
  | ValueKind.kString, v => (∃ s, v = JSVal.str s) ∨ v = JSVal.null
  | ValueKind.kBoolean, v => ∃ b, v = JSVal.bool b
  | ValueKind.kInt, v => ∃ n : ℤ, v = JSVal.num (n : ℚ) ∧ -2147483648 ≤ n ∧ n < 2147483648
  | ValueKind.kLong, v =>
      ∃ n : ℤ, v = JSVal.num (n : ℚ) ∧ -9223372036854775808 ≤ n ∧
        n < 9223372036854775808 ∧ f64RoundInt n = n
  | ValueKind.kDouble, v => (∃ q : ℚ, v = JSVal.num q) ∨ v = JSVal.nanv
  | ValueKind.kVoid, _ => False

/-- C1: for every supported kind K (String, Boolean, Int32, Int64,
Double) and every in-range script value v, converting v script→host with
`convertJsToJava` and the result back host→script with `convertJavaToJs`
reproduces v's semantic value; in particular for kind String a script
null maps to the host null reference and back to script null (so the
round trip is the identity there as well). -/
theorem c1_roundtrip (K : ValueKind) (v : JSVal) (h : inRangeJs K v) :
    convertJavaToJs K (convertJsToJava K v) = v := by
  cases K with
  | kVoid => exact absurd h id
  | kString =>
    rcases h with ⟨s, rfl⟩ | rfl
    · simp [convertJsToJava, jsToCString, convertJavaToJs]
    · simp [convertJsToJava, convertJavaToJs]
  | kBoolean =>
    obtain ⟨b, rfl⟩ := h
    simp [convertJsToJava, JS_ToBool, convertJavaToJs]
  | kInt =>
    obtain ⟨n, rfl, h1, h2⟩ := h
    simp [convertJsToJava, JS_ToInt32, jsToNumber, jsNumToInt32, ratTrunc_intCast,
      wrap32_eq_self n h1 h2, convertJavaToJs]
  | kLong =>
    obtain ⟨n, rfl, h1, h2, h3⟩ := h
    have hconv : convertJsToJava ValueKind.kLong (JSVal.num ((n : ℚ))) = some (JavaVal.jlong n) := by
      simp [convertJsToJava, JS_ToInt64, jsToNumber, jsNumToInt64, ratTrunc_intCast,
        wrap64_eq_self n h1 h2]
    rw [hconv]
    simp only [convertJavaToJs, JS_NewInt64]
    split
    · rfl
    · rw [h3]
  | kDouble =>
    rcases h with ⟨q, rfl⟩ | rfl
    · simp [convertJsToJava, JS_ToFloat64, jsToNumber, convertJavaToJs]
    · simp [convertJsToJava, JS_ToFloat64, jsToNumber, convertJavaToJs]

/-- Witness for C1 at kind String and the value "hello". -/
theorem c1_roundtrip_witness :
    convertJavaToJs ValueKind.kString (convertJsToJava ValueKind.kString (JSVal.str "hello")) =
      JSVal.str "hello" :=
  c1_roundtrip ValueKind.kString (JSVal.str "hello") (Or.inl ⟨"hello", rfl⟩)

/-! ### C4 — classifier -/

/-- C4 counterexample: the claim says every descriptor outside the
supported set is classified as an "unsupported" sentinel distinct from
every kind including Void.  The classifier's codomain is the closed
`ValueKind` enumeration and an unrecognized class descriptor is
classified as `kVoid` — exactly the classification of a null/absent
descriptor — so no distinct sentinel exists. -/
theorem c4_classifier_counterexample :
    classifyParameter (some (TypeDesc.other 0)) = ValueKind.kVoid ∧
      classifyParameter none = ValueKind.kVoid := by
  constructor <;> rfl

/-- C4 as amended: `classifyParameter` is a pure function of its
descriptor mapping String to kString, boxed/primitive boolean to
kBoolean, boxed/primitive 32-bit integer to kInt, boxed/primitive 64-bit
integer to kLong, boxed/primitive double to kDouble, and a null/absent
descriptor to kVoid; every other descriptor (including `Void.TYPE`) is
also classified as `kVoid` — the code reuses Void as the unsupported
sentinel, and registration rejects a `kVoid` parameter classification as
an unsupported parameter type. -/
theorem c4_classifier_amended :
    classifyParameter none = ValueKind.kVoid ∧
    classifyParameter (some TypeDesc.stringT) = ValueKind.kString ∧
    classifyParameter (some TypeDesc.booleanBox) = ValueKind.kBoolean ∧
    classifyParameter (some TypeDesc.booleanPrim) = ValueKind.kBoolean ∧
    classifyParameter (some TypeDesc.integerBox) = ValueKind.kInt ∧
    classifyParameter (some TypeDesc.integerPrim) = ValueKind.kInt ∧
    classifyParameter (some TypeDesc.longBox) = ValueKind.kLong ∧
    classifyParameter (some TypeDesc.longPrim) = ValueKind.kLong ∧
    classifyParameter (some TypeDesc.doubleBox) = ValueKind.kDouble ∧
    classifyParameter (some TypeDesc.doublePrim) = ValueKind.kDouble ∧
    classifyParameter (some TypeDesc.voidPrim) = ValueKind.kVoid ∧
    (∀ tag, classifyParameter (some (TypeDesc.other tag)) = ValueKind.kVoid) ∧
    (∀ tag, classifyParams [some (TypeDesc.other tag)] = none) := by
  refine ⟨rfl, rfl, rfl, rfl, rfl, rfl, rfl, rfl, rfl, rfl, rfl, fun tag => rfl, fun tag => rfl⟩

/-! ### C7 — host-to-script null defaults -/

/-- C7: `convertJavaToJs` maps a null host value to the kind's default —
script null for String, false for Boolean, numeric zero for Int32 and
Int64, 0.0 for Double — and for kind Void it produces the script
undefined marker regardless of the input value. -/
theorem c7_null_defaults :
    convertJavaToJs ValueKind.kString none = JSVal.null ∧
    convertJavaToJs ValueKind.kBoolean none = JSVal.bool false ∧
    convertJavaToJs ValueKind.kInt none = JSVal.num 0 ∧
    convertJavaToJs ValueKind.kLong none = JSVal.num 0 ∧
    convertJavaToJs ValueKind.kDouble none = JSVal.num 0 ∧
    (∀ v, convertJavaToJs ValueKind.kVoid v = JSVal.undefined) :=
  ⟨rfl, rfl, rfl, rfl, rfl, fun _ => rfl⟩

/-! ### C8 — Int64 host-to-script precision -/

/-- C8 counterexample: the host long 2^53 + 1 = 9007199254740993 is
outside the int32 fast path, so `JS_NewInt64` casts it to a double; the
nearest representable double is 2^53, so the script numeric value
produced does not represent the original integer. -/
theorem c8_int64_precision_counterexample :
    convertJavaToJs ValueKind.kLong (some (JavaVal.jlong 9007199254740993)) =
        JSVal.num ((9007199254740992 : ℤ) : ℚ) ∧
      convertJavaToJs ValueKind.kLong (some (JavaVal.jlong 9007199254740993)) ≠
        JSVal.num ((9007199254740993 : ℤ) : ℚ) := by
  constructor <;> decide

/-- C8 as amended: the host→script conversion for kind Int64 is exact for
every non-null host long whose magnitude is at most 2^53 (the integers
the script's double numeric representation can hold exactly); beyond
that the value is rounded to the nearest representable double. -/
theorem c8_int64_precision_amended (n : ℤ) (h : n.natAbs ≤ 9007199254740992) :
    convertJavaToJs ValueKind.kLong (some (JavaVal.jlong n)) = JSVal.num ((n : ℤ) : ℚ) := by
  simp only [convertJavaToJs, JS_NewInt64]
  split
  · rfl
  · rw [f64RoundInt_small n h]

/-- Witness for C8 (amended) at the boundary value 2^53. -/
theorem c8_int64_precision_witness :
    convertJavaToJs ValueKind.kLong (some (JavaVal.jlong 9007199254740992)) =
      JSVal.num ((9007199254740992 : ℤ) : ℚ) :=
  c8_int64_precision_amended 9007199254740992 (by decide)

/-! ### C6 — host exception translation -/

/-- C6: when the invoked host method raises, the dispatcher surfaces a
script-catchable error (a thrown JS InternalError) carrying the message
extracted by `describeThrowable` — never the host exception itself — and
the extraction returns the throwable's own message whenever it is
non-empty ("boom" yields "boom"), falling back to the generic text when
the throwable is null, when `getMessage` itself throws, when the message
reference is null, or when the message is empty. -/
theorem c6_host_exception :
    (∀ (binding : BindingRec) (argv : List JSVal)
        (host : List (Option JavaVal) → HostOutcome)
        (conv : List (Option JavaVal)) (t : Option ThrowableM),
      convertArgs binding.objectName binding.methodName binding.parameterKinds argv =
          Except.ok conv →
      host conv = HostOutcome.threw t →
      invokeBinding binding argv host =
        InvokeResult.jsThrow ErrTag.internalError (describeThrowable t)) ∧
    (∀ m : String, m ≠ "" →
      describeThrowable (some { getMessageThrows := false, message := some m }) = m) ∧
    describeThrowable none = "Host method threw an exception" ∧
    (∀ m, describeThrowable (some { getMessageThrows := true, message := m }) =
      "Host method threw an exception") ∧
    describeThrowable (some { getMessageThrows := false, message := some "" }) =
      "Host method threw an exception" ∧
    describeThrowable (some { getMessageThrows := false, message := none }) =
      "Host method threw an exception" := by
  refine ⟨?_, ?_, rfl, fun m => rfl, rfl, rfl⟩
  · intro binding argv host conv t hconv hthrew
    simp only [invokeBinding, hconv, hthrew]
  · intro m hm
    simp [describeThrowable, hm]

/-- Witness for C6: a zero-argument binding `Svc.fail` whose host method
always throws with message "boom" yields a thrown JS error whose message
equals "boom". -/
theorem c6_host_exception_witness :
    invokeBinding
        { id := 1, objectName := "Svc", methodName := "fail", parameterKinds := [],
          returnKind := ValueKind.kString, ownedRefs := 2 }
        []
        (fun _ => HostOutcome.threw (some { getMessageThrows := false, message := some "boom" })) =
      InvokeResult.jsThrow ErrTag.internalError "boom" := by
  have h := c6_host_exception.1
      { id := 1, objectName := "Svc", methodName := "fail", parameterKinds := [],
        returnKind := ValueKind.kString, ownedRefs := 2 }
      []
      (fun _ => HostOutcome.threw (some { getMessageThrows := false, message := some "boom" }))
      []
      (some { getMessageThrows := false, message := some "boom" })
      (by rfl) (by rfl)
  rw [h]
  rfl

/-! ### C9 — ensureGlobalObject idempotence -/

/-- C9: `ensureGlobalObject` is idempotent.  When the global property is
absent or null the first call creates a fresh object, installs it, and
returns it; afterwards the property holds the returned value, so a
second call (with any engine-failure flag — the creation path is not
even reached) takes the reuse branch, performs no mutation of the global
object, and returns the very same state and logical object. -/
theorem c9_ensure_idempotent (st : BridgeSt) (name : String) (st1 : BridgeSt) (v1 : GVal)
    (h : ensureGlobalObject st name false = some (st1, v1)) :
    getGlobal st1 name = v1 ∧
      ∀ flag, ensureGlobalObject st1 name flag = some (st1, v1) := by
  unfold ensureGlobalObject at h
  by_cases hc : getGlobal st name = GVal.undefinedV ∨ getGlobal st name = GVal.nullV
  · simp only [hc, if_true, Bool.false_eq_true, if_false, Option.some.injEq,
      Prod.mk.injEq] at h
    obtain ⟨hst, hv⟩ := h
    have hget : getGlobal st1 name = v1 := by
      rw [← hst, ← hv]
      simp [getGlobal, setAssoc, List.lookup]
    refine ⟨hget, fun flag => ?_⟩
    unfold ensureGlobalObject
    rw [hget]
    have hne : ¬(v1 = GVal.undefinedV ∨ v1 = GVal.nullV) := by
      rw [← hv]
      simp
    rw [if_neg hne]
  · simp only [hc, if_false, Option.some.injEq, Prod.mk.injEq] at h
    obtain ⟨hst, hv⟩ := h
    subst hst
    refine ⟨hv, fun flag => ?_⟩
    unfold ensureGlobalObject
    rw [hv] at hc ⊢
    rw [if_neg hc]

/-- Witness for C9: ensuring the namespace "Calculator" on the freshly
created context state, then checking the second call returns the same
state and object. -/
theorem c9_ensure_idempotent_witness :
    getGlobal
        { initialState with
            globals := [("Calculator", GVal.objref 0)],
            heap := [(0, ([] : List (String × GVal)))],
            nextObj := 1 } "Calculator" = GVal.objref 0 ∧
      ∀ flag, ensureGlobalObject
          { initialState with
              globals := [("Calculator", GVal.objref 0)],
              heap := [(0, ([] : List (String × GVal)))],
              nextObj := 1 } "Calculator" flag =
        some ({ initialState with
                  globals := [("Calculator", GVal.objref 0)],
                  heap := [(0, ([] : List (String × GVal)))],
                  nextObj := 1 }, GVal.objref 0) :=
  c9_ensure_idempotent initialState "Calculator"
    { initialState with
        globals := [("Calculator", GVal.objref 0)],
        heap := [(0, ([] : List (String × GVal)))],
        nextObj := 1 }
    (GVal.objref 0) (by decide)

/-! ### C5 — argument conversion in the dispatcher -/

lemma getD_zero {α : Type} (l : List α) (d : α) : l.getD 0 d = l.headD d := by
  cases l <;> rfl

lemma getD_succ {α : Type} (l : List α) (j : Nat) (d : α) :
    l.getD (j + 1) d = l.tail.getD j d := by
  cases l <;> rfl

lemma convAt_zero (k : ValueKind) (ks : List ValueKind) (args : List JSVal) :
    convAt (k :: ks) args 0 = convertJsToJava k (args.headD JSVal.undefined) := by
  cases args <;> rfl

lemma convAt_succ (k : ValueKind) (ks : List ValueKind) (args : List JSVal) (j : Nat) :
    convAt (k :: ks) args (j + 1) = convAt ks args.tail j := by
  cases args <;> rfl

lemma argFails_zero (k : ValueKind) (ks : List ValueKind) (args : List JSVal) :
    argFails (k :: ks) args 0 ↔
      (convertJsToJava k (args.headD JSVal.undefined) = none ∧ k ≠ ValueKind.kString) := by
  unfold argFails convAt argAt
  cases args <;> exact Iff.rfl

lemma argFails_succ (k : ValueKind) (ks : List ValueKind) (args : List JSVal) (j : Nat) :
    argFails (k :: ks) args (j + 1) ↔ argFails ks args.tail j := by
  unfold argFails convAt argAt
  cases args <;> exact Iff.rfl

lemma range_map_convAt_succ (k : ValueKind) (ks : List ValueKind) (args : List JSVal)
    (i : Nat) :
    (List.range (i + 1)).map (convAt (k :: ks) args) =
      convertJsToJava k (args.headD JSVal.undefined) ::
        (List.range i).map (convAt ks args.tail) := by
  rw [List.range_succ_eq_map, List.map_cons, List.map_map]
  have hfun : (convAt (k :: ks) args ∘ Nat.succ) = convAt ks args.tail := by
    funext j
    exact convAt_succ k ks args j
  rw [hfun, convAt_zero]

lemma convertArgsAux_error (objectName methodName : String) :
    ∀ (ks : List ValueKind) (args : List JSVal) (acc : List (Option JavaVal)) (i : Nat),
      i < ks.length → argFails ks args i → (∀ j, j < i → ¬ argFails ks args j) →
      convertArgsAux objectName methodName ks args acc =
        Except.error
          { message := "Unable to convert argument for method " ++ objectName ++ "." ++ methodName,
            released := (acc.reverse ++ (List.range i).map (convAt ks args)).filterMap id }
  | [], _, _, i, hi, _, _ => absurd hi (by simp)
  | k :: ks, args, acc, 0, _, hf, _ => by
    rw [argFails_zero] at hf
    unfold convertArgsAux
    rw [if_pos hf]
    simp
  | k :: ks, args, acc, i + 1, hi, hf, hpre => by
    have h0 : ¬ argFails (k :: ks) args 0 := hpre 0 (Nat.succ_pos i)
    rw [argFails_zero] at h0
    unfold convertArgsAux
    rw [if_neg h0]
    rw [convertArgsAux_error objectName methodName ks args.tail
        (convertJsToJava k (args.headD JSVal.undefined) :: acc) i
        (by simpa using Nat.lt_of_succ_lt_succ hi)
        ((argFails_succ k ks args i).mp hf)
        (fun j hj => by
          have hj2 := hpre (j + 1) (Nat.succ_lt_succ hj)
          rw [argFails_succ] at hj2
          exact hj2)]
    congr 1
    rw [range_map_convAt_succ]
    simp

lemma convertArgsAux_ok (objectName methodName : String) :
    ∀ (ks : List ValueKind) (args : List JSVal) (acc : List (Option JavaVal)),
      (∀ j, j < ks.length → ¬ argFails ks args j) →
      convertArgsAux objectName methodName ks args acc =
        Except.ok (acc.reverse ++ (List.range ks.length).map (convAt ks args))
  | [], _, acc, _ => by simp [convertArgsAux]
  | k :: ks, args, acc, hpre => by
    have h0 : ¬ argFails (k :: ks) args 0 := hpre 0 (by simp)
    rw [argFails_zero] at h0
    unfold convertArgsAux
    rw [if_neg h0]
    rw [convertArgsAux_ok objectName methodName ks args.tail
        (convertJsToJava k (args.headD JSVal.undefined) :: acc)
        (fun j hj => by
          have hj2 := hpre (j + 1) (by simpa using Nat.succ_lt_succ hj)
          rw [argFails_succ] at hj2
          exact hj2)]
    congr 1
    rw [List.length_cons, range_map_convAt_succ]
    simp

/-- C5: in script→host argument conversion the dispatcher treats a null
conversion for a kind other than String (the absence signal the engine's
coercion failure produces for Boolean/Int32/Int64/Double) as a hard
error — the loop aborts with a TypeError naming the object and method
and releases exactly the already-converted host arguments — whereas kind
String converts a null or undefined script value to the host null
reference, which the loop accepts as a valid argument and which can
never trigger that error (the error condition requires a non-String
kind), so a call whose only null conversions are String arguments
completes with every converted argument in place. -/
theorem c5_argument_conversion :
    (∀ (objectName methodName : String) (kinds : List ValueKind) (args : List JSVal) (i : Nat),
      i < kinds.length → argFails kinds args i → (∀ j, j < i → ¬ argFails kinds args j) →
      convertArgs objectName methodName kinds args =
        Except.error
          { message := "Unable to convert argument for method " ++ objectName ++ "." ++ methodName,
            released := ((List.range i).map (convAt kinds args)).filterMap id }) ∧
    (convertJsToJava ValueKind.kString JSVal.null = none ∧
      convertJsToJava ValueKind.kString JSVal.undefined = none) ∧
    (∀ (objectName methodName : String) (kinds : List ValueKind) (args : List JSVal),
      (∀ j, j < kinds.length → ¬ argFails kinds args j) →
      convertArgs objectName methodName kinds args =
        Except.ok ((List.range kinds.length).map (convAt kinds args))) := by
  refine ⟨?_, ⟨rfl, rfl⟩, ?_⟩
  · intro objectName methodName kinds args i hi hf hpre
    unfold convertArgs
    rw [convertArgsAux_error objectName methodName kinds args [] i hi hf hpre]
    simp
  · intro objectName methodName kinds args hpre
    unfold convertArgs
    rw [convertArgsAux_ok objectName methodName kinds args [] hpre]
    simp

/-- Witness for C5: a one-parameter Int32 binding called with a Symbol
(whose numeric coercion the engine rejects) aborts with the naming
TypeError and no arguments to release. -/
theorem c5_argument_conversion_witness :
    convertArgs "Svc" "sum" [ValueKind.kInt] [JSVal.symbol] =
      Except.error
        { message := "Unable to convert argument for method " ++ "Svc" ++ "." ++ "sum",
          released := [] } := by
  have h := c5_argument_conversion.1 "Svc" "sum" [ValueKind.kInt] [JSVal.symbol] 0
    (by decide) (by decide) (fun j hj => absurd hj (Nat.not_lt_zero j))
  simpa using h

/-! ### Registry helper lemmas -/

lemma lookup_cons_self (l : List (ℤ × BindingRec)) (k : ℤ) (b : BindingRec) :
    ((k, b) :: l).lookup k = some b := by
  simp [List.lookup]

lemma lookup_cons_ne (l : List (ℤ × BindingRec)) (a k : ℤ) (b : BindingRec) (h : a ≠ k) :
    ((k, b) :: l).lookup a = l.lookup a := by
  have hbeq : (a == k) = false := by simp [h]
  simp [List.lookup, hbeq]

lemma lookup_mem : ∀ (l : List (ℤ × BindingRec)) (k : ℤ) (b : BindingRec),
    l.lookup k = some b → (k, b) ∈ l
  | [], k, b, h => by simp [List.lookup] at h
  | (pk, pv) :: t, k, b, h => by
    by_cases hk : k = pk
    · subst hk
      rw [lookup_cons_self] at h
      cases h
      exact List.mem_cons_self _ _
    · rw [lookup_cons_ne t k pk pv hk] at h
      exact List.mem_cons_of_mem _ (lookup_mem t k b h)

lemma filter_key_ne_eq_self (l : List (ℤ × BindingRec)) (k : ℤ)
    (h : ∀ p ∈ l, p.1 ≠ k) :
    l.filter (fun p => !(p.1 == k)) = l :=
  List.filter_eq_self.mpr (fun p hp => by simpa using h p hp)

lemma lookup_filter_key_ne : ∀ (l : List (ℤ × BindingRec)) (a k : ℤ), a ≠ k →
    (l.filter (fun p => !(p.1 == k))).lookup a = l.lookup a
  | [], _, _, _ => rfl
  | (pk, pv) :: t, a, k, h => by
    rw [List.filter_cons]
    by_cases hpk : pk = k
    · subst hpk
      simp only [beq_self_eq_true, Bool.not_true, Bool.false_eq_true, if_false]
      rw [lookup_filter_key_ne t a pk h, lookup_cons_ne t a pk pv h]
    · have hcond : (!((pk, pv).1 == k)) = true := by simp [hpk]
      rw [if_pos hcond]
      by_cases hak : a = pk
      · subst hak
        rw [lookup_cons_self, lookup_cons_self]
      · rw [lookup_cons_ne _ a pk pv hak, lookup_cons_ne t a pk pv hak,
          lookup_filter_key_ne t a k h]

lemma rollback_eq (sy : BridgeSt) (bid : ℤ) (b : BindingRec)
    (rest : List (ℤ × BindingRec)) (h : sy.bindings = (bid, b) :: rest) :
    rollback sy bid =
      { sy with
          bindings := ((bid, b) :: rest).filter (fun p => !(p.1 == bid)),
          hostRefs := sy.hostRefs - b.ownedRefs } := by
  unfold rollback
  rw [h, lookup_cons_self]

lemma ensureGlobalObject_frame (sx : BridgeSt) (name : String) (flag : Bool)
    (st3 : BridgeSt) (v : GVal) (h : ensureGlobalObject sx name flag = some (st3, v)) :
    st3.bindings = sx.bindings ∧ st3.nextBindingId = sx.nextBindingId ∧
      st3.assigned = sx.assigned ∧ st3.hostRefs = sx.hostRefs := by
  unfold ensureGlobalObject at h
  split at h
  · split at h
    · exact Option.noConfusion h
    · injection h with h1
      injection h1 with ha hb
      subst ha
      exact ⟨rfl, rfl, rfl, rfl⟩
  · injection h with h1
    injection h1 with ha hb
    subst ha
    exact ⟨rfl, rfl, rfl, rfl⟩

lemma ensureGlobalObject_scriptMethod (sx : BridgeSt) (name mn : String) (flag : Bool)
    (st3 : BridgeSt) (v : GVal) (h : ensureGlobalObject sx name flag = some (st3, v)) :
    scriptMethod st3 name mn = scriptMethod sx name mn := by
  unfold ensureGlobalObject at h
  split at h
  · rename_i hc
    split at h
    · exact Option.noConfusion h
    · injection h with h1
      injection h1 with ha hb
      subst ha
      have hs : scriptMethod sx name mn = none := by
        unfold scriptMethod
        rcases hc with hc | hc <;> rw [hc]
      rw [hs]
      simp [scriptMethod, getGlobal, setAssoc, List.lookup]
  · injection h with h1
    injection h1 with ha hb
    subst ha
    rfl

lemma defineMethodProp_frame (sx : BridgeSt) (nsVal : GVal) (mn : String)
    (bid : ℤ) (flag : Bool) (st4 : BridgeSt)
    (h : defineMethodProp sx nsVal mn bid flag = some st4) :
    st4.bindings = sx.bindings ∧ st4.nextBindingId = sx.nextBindingId ∧
      st4.assigned = sx.assigned ∧ st4.hostRefs = sx.hostRefs := by
  unfold defineMethodProp at h
  split at h
  · split at h
    · exact Option.noConfusion h
    · split at h
      · injection h with ha
        subst ha
        exact ⟨rfl, rfl, rfl, rfl⟩
      · exact Option.noConfusion h
  · exact Option.noConfusion h

lemma nativeRegister_error_state (st : BridgeSt) (objectName methodName : String)
    (hasInstance : Bool) (parameterTypes : List (Option TypeDesc))
    (returnType : Option TypeDesc) (oracle : EngineOracle)
    (hB : BindingsBound st) :
    (nativeRegister st objectName methodName hasInstance parameterTypes returnType oracle).2 =
        none ∨
    ((nativeRegister st objectName methodName hasInstance parameterTypes returnType
          oracle).1.bindings = st.bindings ∧
      (nativeRegister st objectName methodName hasInstance parameterTypes returnType
          oracle).1.hostRefs = st.hostRefs ∧
      scriptMethod
          (nativeRegister st objectName methodName hasInstance parameterTypes returnType
            oracle).1 objectName methodName =
        scriptMethod st objectName methodName) := by
  have hne : ∀ p ∈ st.bindings, p.1 ≠ st.nextBindingId := fun p hp => ne_of_lt (hB p hp)
  simp only [nativeRegister, acquireRefs, releaseRefs]
  split
  · right
    exact ⟨rfl, rfl, rfl⟩
  · split
    · right
      refine ⟨rfl, ?_, rfl⟩
      simp
    · split
      · right
        refine ⟨rfl, ?_, rfl⟩
        simp
      · split
        · right
          rw [rollback_eq _ st.nextBindingId _ st.bindings rfl]
          refine ⟨?_, ?_, rfl⟩
          · dsimp only
            rw [List.filter_cons]
            simp only [beq_self_eq_true, Bool.not_true, Bool.false_eq_true, if_false]
            exact filter_key_ne_eq_self st.bindings st.nextBindingId hne
          · simp
        all_goals
          (rename_i heqE
           obtain ⟨hb3, hn3, ha3, hr3⟩ :=
             ensureGlobalObject_frame _ objectName oracle.ensureFails _ _ heqE
           have hsm3 :=
             ensureGlobalObject_scriptMethod _ objectName methodName oracle.ensureFails
               _ _ heqE
           dsimp only at hb3 hr3
           split
           · right
             rw [rollback_eq _ st.nextBindingId _ st.bindings hb3]
             refine ⟨?_, ?_, hsm3⟩
             · dsimp only
               rw [List.filter_cons]
               simp only [beq_self_eq_true, Bool.not_true, Bool.false_eq_true, if_false]
               exact filter_key_ne_eq_self st.bindings st.nextBindingId hne
             · dsimp only
               rw [hr3]
               simp
           · split
             · right
               rw [rollback_eq _ st.nextBindingId _ st.bindings hb3]
               refine ⟨?_, ?_, hsm3⟩
               · dsimp only
                 rw [List.filter_cons]
                 simp only [beq_self_eq_true, Bool.not_true, Bool.false_eq_true, if_false]
                 exact filter_key_ne_eq_self st.bindings st.nextBindingId hne
               · dsimp only
                 rw [hr3]
                 simp
             · left
               rfl)

/-! ### C2 — all-or-nothing registration -/

/-- C2: registration is all-or-nothing.  Whenever `nativeRegister`
reports an error — empty names, an unsupported parameter or return type,
namespace-object creation failure, native-function creation failure, or
property-attach failure — the returned state has the original registry
(the entry created for this registration, if any, was removed), the
original count of live host global references (the method/instance
references acquired for it were released), and no script-visible
function: the property `objectName.methodName` resolves exactly as it
did before the call. -/
theorem c2_registration_rollback (st : BridgeSt) (objectName methodName : String)
    (hasInstance : Bool) (parameterTypes : List (Option TypeDesc))
    (returnType : Option TypeDesc) (oracle : EngineOracle)
    (hB : BindingsBound st)
    (herr : (nativeRegister st objectName methodName hasInstance parameterTypes returnType
        oracle).2 ≠ none) :
    (nativeRegister st objectName methodName hasInstance parameterTypes returnType
        oracle).1.bindings = st.bindings ∧
    (nativeRegister st objectName methodName hasInstance parameterTypes returnType
        oracle).1.hostRefs = st.hostRefs ∧
    scriptMethod
        (nativeRegister st objectName methodName hasInstance parameterTypes returnType
          oracle).1 objectName methodName =
      scriptMethod st objectName methodName := by
  rcases nativeRegister_error_state st objectName methodName hasInstance parameterTypes
      returnType oracle hB with h | h
  · exact absurd h herr
  · exact h

/-- Witness for C2: registering `Calc.add` with an unsupported parameter
descriptor on a fresh context fails and leaves registry, reference count
and script namespace untouched. -/
theorem c2_registration_rollback_witness :
    (nativeRegister initialState "Calc" "add" false [some (TypeDesc.other 0)] none
        {}).1.bindings = initialState.bindings ∧
    (nativeRegister initialState "Calc" "add" false [some (TypeDesc.other 0)] none
        {}).1.hostRefs = initialState.hostRefs ∧
    scriptMethod
        (nativeRegister initialState "Calc" "add" false [some (TypeDesc.other 0)] none
          {}).1 "Calc" "add" =
      scriptMethod initialState "Calc" "add" :=
  c2_registration_rollback initialState "Calc" "add" false [some (TypeDesc.other 0)] none
    {} (by decide) (by decide)

/-! ### Shape of a registration for the trace invariants -/

lemma nativeRegister_shape (st : BridgeSt) (objectName methodName : String)
    (hasInstance : Bool) (parameterTypes : List (Option TypeDesc))
    (returnType : Option TypeDesc) (oracle : EngineOracle) :
    ((nativeRegister st objectName methodName hasInstance parameterTypes returnType
          oracle).1.nextBindingId = st.nextBindingId ∧
      (nativeRegister st objectName methodName hasInstance parameterTypes returnType
          oracle).1.assigned = st.assigned ∧
      (nativeRegister st objectName methodName hasInstance parameterTypes returnType
          oracle).1.bindings = st.bindings) ∨
    ((nativeRegister st objectName methodName hasInstance parameterTypes returnType
          oracle).1.nextBindingId = st.nextBindingId + 1 ∧
      (nativeRegister st objectName methodName hasInstance parameterTypes returnType
          oracle).1.assigned = st.nextBindingId :: st.assigned ∧
      ∃ b : BindingRec,
        (nativeRegister st objectName methodName hasInstance parameterTypes returnType
            oracle).1.bindings = (st.nextBindingId, b) :: st.bindings ∨
        (nativeRegister st objectName methodName hasInstance parameterTypes returnType
            oracle).1.bindings =
          ((st.nextBindingId, b) :: st.bindings).filter
            (fun p => !(p.1 == st.nextBindingId))) := by
  simp only [nativeRegister, acquireRefs, releaseRefs]
  split
  · left
    exact ⟨rfl, rfl, rfl⟩
  · split
    · left
      exact ⟨rfl, rfl, rfl⟩
    · split
      · left
        exact ⟨rfl, rfl, rfl⟩
      · split
        · right
          rw [rollback_eq _ st.nextBindingId _ st.bindings rfl]
          exact ⟨rfl, rfl, _, Or.inr rfl⟩
        all_goals
          (rename_i heqE
           obtain ⟨hb3, hn3, ha3, hr3⟩ :=
             ensureGlobalObject_frame _ objectName oracle.ensureFails _ _ heqE
           dsimp only at hb3 hn3 ha3
           split
           · right
             rw [rollback_eq _ st.nextBindingId _ st.bindings hb3]
             exact ⟨hn3, ha3, _, Or.inr rfl⟩
           · split
             · right
               rw [rollback_eq _ st.nextBindingId _ st.bindings hb3]
               exact ⟨hn3, ha3, _, Or.inr rfl⟩
             · rename_i st4 heqD
               right
               obtain ⟨hb4, hn4, ha4, hr4⟩ :=
                 defineMethodProp_frame _ _ methodName st.nextBindingId
                   oracle.definePropFails st4 heqD
               refine ⟨?_, ?_, ?_⟩
               · rw [hn4, hn3]
               · rw [ha4, ha3]
               · exact ⟨_, Or.inl (by rw [hb4, hb3])⟩)

/-! ### C3 — binding identifier allocation -/

/-- Invariant tying the ghost log of assigned identifiers to the
allocation counter. -/
def CounterInv (st : BridgeSt) : Prop :=
  1 ≤ st.nextBindingId ∧ (∀ a ∈ st.assigned, 1 ≤ a ∧ a < st.nextBindingId) ∧
    st.assigned.Pairwise (fun a b => b < a)

lemma counterInv_step (st : BridgeSt) (op : BridgeOp) (h : CounterInv st) :
    CounterInv (stepOp st op) := by
  obtain ⟨h1, h2, h3⟩ := h
  cases op with
  | register o m hI ps rt orc =>
    show CounterInv ((nativeRegister st o m hI ps rt orc).1)
    rcases nativeRegister_shape st o m hI ps rt orc with ⟨e1, e2, _⟩ | ⟨e1, e2, _⟩
    · unfold CounterInv
      rw [e1, e2]
      exact ⟨h1, h2, h3⟩
    · unfold CounterInv
      rw [e1, e2]
      refine ⟨by omega, ?_, ?_⟩
      · intro a ha
        rcases List.mem_cons.mp ha with rfl | ha
        · omega
        · have := h2 a ha
          omega
      · rw [List.pairwise_cons]
        exact ⟨fun a ha => (h2 a ha).2, h3⟩
  | evaluate => exact ⟨h1, h2, h3⟩
  | executePendingJob => exact ⟨h1, h2, h3⟩
  | dispatch magic => exact ⟨h1, h2, h3⟩
  | destroy => exact ⟨h1, h2, h3⟩

lemma counterInv_run : ∀ (ops : List BridgeOp) (st : BridgeSt),
    CounterInv st → CounterInv (runOps st ops)
  | [], _, h => h
  | op :: rest, st, h => counterInv_run rest _ (counterInv_step st op h)

/-- C3: binding identifiers come from a per-context counter that starts
at 1 and only increases.  Along every serialized trace of bridge
operations from a fresh context (the registration mutex makes the
allocate-and-store step atomic, so every concurrent execution's
identifier assignments form such a serialization): every assigned
identifier is positive, the ghost log of assigned identifiers (newest
first) is strictly decreasing — i.e. each successful allocation receives
an identifier strictly greater than all identifiers previously assigned
in that context — and hence the identifiers are pairwise distinct: none
is ever reused, not after a binding's rollback or removal, and no two
registrations ever receive the same one. -/
theorem c3_binding_ids (ops : List BridgeOp) :
    initialState.nextBindingId = 1 ∧
    1 ≤ (runOps initialState ops).nextBindingId ∧
    (∀ a ∈ (runOps initialState ops).assigned, 0 < a) ∧
    (runOps initialState ops).assigned.Pairwise (fun a b => b < a) ∧
    (runOps initialState ops).assigned.Nodup := by
  have hrun := counterInv_run ops initialState
    ⟨le_refl 1, by simp [initialState], by simp [initialState]⟩
  obtain ⟨h1, h2, h3⟩ := hrun
  refine ⟨rfl, h1, fun a ha => ?_, h3, ?_⟩
  · have := (h2 a ha).1
    omega
  · exact h3.imp (fun hab => ne_of_gt hab)

/-! ### C10 — no unregister operation -/

/-- C10: the bridge's JNI surface (the `BridgeOp` type lists its exported
operations on a live context) has no unregister operation, and a binding
present in the registry survives every operation except `destroy`: its
`dispatchLookup` — the lookup `methodDispatcher` performs on every
invocation — keeps succeeding with the same record.  A failed
registration's rollback removes only the entry it just allocated (whose
fresh identifier exceeds every stored one), never an established
binding.  `nativeDestroy` is the one operation that clears the registry,
and it releases every host reference the bindings owned. -/
theorem c10_no_unregister :
    (∀ (st : BridgeSt) (op : BridgeOp) (id : ℤ) (b : BindingRec),
      BindingsBound st → op ≠ BridgeOp.destroy →
      dispatchLookup st id = some b → dispatchLookup (stepOp st op) id = some b) ∧
    (∀ st : BridgeSt, st.hostRefs = refSum st →
      (stepOp st BridgeOp.destroy).bindings = [] ∧
        (stepOp st BridgeOp.destroy).hostRefs = 0) := by
  constructor
  · intro st op id b hB hop hlook
    cases op with
    | register o m hI ps rt orc =>
      show dispatchLookup ((nativeRegister st o m hI ps rt orc).1) id = some b
      have hid : id ≠ st.nextBindingId := by
        have hmem := lookup_mem st.bindings id b hlook
        exact ne_of_lt (hB (id, b) hmem)
      rcases nativeRegister_shape st o m hI ps rt orc with ⟨_, _, e3⟩ | ⟨_, _, b2, hb⟩
      · unfold dispatchLookup
        rw [e3]
        exact hlook
      · rcases hb with hb | hb
        · unfold dispatchLookup
          rw [hb, lookup_cons_ne st.bindings id st.nextBindingId b2 hid]
          exact hlook
        · unfold dispatchLookup
          rw [hb, lookup_filter_key_ne _ id st.nextBindingId hid,
            lookup_cons_ne st.bindings id st.nextBindingId b2 hid]
          exact hlook
    | evaluate => exact hlook
    | executePendingJob => exact hlook
    | dispatch magic => exact hlook
    | destroy => exact absurd rfl hop
  · intro st h
    refine ⟨rfl, ?_⟩
    show st.hostRefs - (st.bindings.map (fun p => p.2.ownedRefs)).sum = 0
    rw [h]
    simp [refSum]

/-- A sample stored binding for exercising the registry theorems. -/
def boundBinding : BindingRec :=
  { id := 1
    objectName := "Calc"
    methodName := "add"
    parameterKinds := []
    returnKind := ValueKind.kVoid
    ownedRefs := 2 }

/-- A context state holding `boundBinding` under identifier 1. -/
def boundContext : BridgeSt :=
  { initialState with
      bindings := [(1, boundBinding)]
      nextBindingId := 2
      hostRefs := 2 }

/-- Witness for C10: a context holding the binding of `Calc.add` under
identifier 1 keeps it across an `evaluate` step, and destruction clears
the registry and the owned references. -/
theorem c10_no_unregister_witness :
    dispatchLookup (stepOp boundContext BridgeOp.evaluate) 1 = some boundBinding ∧
    (stepOp boundContext BridgeOp.destroy).bindings = [] ∧
    (stepOp boundContext BridgeOp.destroy).hostRefs = 0 := by
  refine ⟨c10_no_unregister.1 boundContext BridgeOp.evaluate 1 boundBinding
      (by decide) (by decide) (by decide),
    (c10_no_unregister.2 boundContext (by decide)).1,
    (c10_no_unregister.2 boundContext (by decide)).2⟩

end QuickJsBridge
